import Mathlib

/-!
# Verification of the teachablemachine-node classification pipeline

Shallow embedding of `src/index.js` (SashiDoTeachableMachine): the score
ranker (`getTopKClasses`), the preprocessing/prediction composition
(`predict`), the decode dispatch in `inference`, the model-loading state
(`loadModel`), and the readiness retry loop (`retryOperation` specialised to
`checkModel`, as `classify` uses it).

Modelling conventions:
* JS numbers are embedded as `ℚ` (the claims depend on ordering and exact
  arithmetic such as `(x - 127.5) / 127.5`, not on float rounding).
* JS `undefined` results (out-of-range array reads, an absent bitmap) are
  embedded as `Option.none`.
* The external collaborators (tensorflow, the image codecs, `is-image-url`,
  the filesystem, the network) are parameters of the embedded functions.
* Time-varying `this.model` is embedded as `ready : Nat → Bool`, giving the
  truthiness of `this.model` at the i-th poll of `checkModel` (polls are
  numbered from 1).
-/

namespace TeachableMachine

/-- Character-list prefix test (model of JS `String.prototype.startsWith`). -/
def listPrefixEq : List Char → List Char → Bool
  | [], _ => true
  | _ :: _, [] => false
  | a :: as, b :: bs => a == b && listPrefixEq as bs

/-- Substring occurrence test on character lists (model of a JS regex
`test` for a fixed literal pattern such as `/file:\/\/\//`). -/
def hasSubAux (pat : List Char) : List Char → Bool
  | [] => listPrefixEq pat []
  | c :: cs => listPrefixEq pat (c :: cs) || hasSubAux pat cs

/-- `hasSub pat s` holds iff `pat` occurs somewhere in `s`. -/
def hasSub (pat s : String) : Bool := hasSubAux pat.data s.data

/-- Model of `/file:\/\/\//.test(imageUrl)` (src/index.js lines 114, 158,
162, 192): the string contains `file:///` anywhere. -/
def fileTest (s : String) : Bool := hasSub "file:///" s

/-- Model of `imageUrl.startsWith("data:image/")` (src/index.js lines 158,
184). -/
def dataTest (s : String) : Bool := listPrefixEq "data:image/".data s.data

/-! ## ScoreRanker (`getTopKClasses`, src/index.js lines 64-96) -/

/-- One element of `valuesAndIndices`: `{ value: values[i], index: i }`. -/
structure ScoredPair where
  value : ℚ
  index : Nat
  deriving DecidableEq

/-- One element of `topClassesAndProbs`: `{ class: classes[idx], score }`.
`class` is a reserved word in Lean, so the field is `className`; its value
is `Option String` because the JS read `classes[idx]` yields `undefined`
when `idx` is out of range. -/
structure ScoredClass where
  className : Option String
  score : ℚ
  deriving DecidableEq

/-- The loop `for i < values.length: push({value: values[i], index: i})`. -/
def enumFrom (i : Nat) : List ℚ → List ScoredPair
  | [] => []
  | v :: vs => ⟨v, i⟩ :: enumFrom (i + 1) vs

/-- Stable insertion step for the JS `sort((a, b) => b.value - a.value)`:
ES2019 `Array.prototype.sort` is stable, so an element inserted from an
earlier position stays before later elements of equal value. -/
def sortedInsert (x : ScoredPair) : List ScoredPair → List ScoredPair
  | [] => [x]
  | y :: l => if y.value ≤ x.value then x :: y :: l else y :: sortedInsert x l

/-- Stable sort by value descending (ties keep original order), the
behaviour of `valuesAndIndices.sort((a, b) => b.value - a.value)`. -/
def sortPairs : List ScoredPair → List ScoredPair
  | [] => []
  | x :: l => sortedInsert x (sortPairs l)

/-- `getTopKClasses(logits, classes)` with `values = await logits.data()`
already extracted. `topK = Math.min(classes.length, values.length)`; the
two copy loops take the first `topK` sorted pairs, and the final loop reads
`classes[topkIndices[i]]` — an unguarded JS index, hence `classes[·]?`. -/
def getTopKClasses (values : List ℚ) (classes : List String) : List ScoredClass :=
  let topK := min classes.length values.length
  let valuesAndIndices := enumFrom 0 values
  let sorted := sortPairs valuesAndIndices
  (sorted.take topK).map (fun p => ⟨classes[p.index]?, p.value⟩)

/-! ## Preprocessor + inference (`predict`, src/index.js lines 43-62) -/

/-- A numeric tensor: a declared shape and a flat data buffer. -/
structure Tensor where
  shape : List Nat
  data : List ℚ
  deriving DecidableEq

/-- A decoded pixel bitmap (what `PImage.decode*FromStream` yields and
`tf.browser.fromPixels` consumes); for the pipeline claims only its tensor
view matters. -/
abbrev Bitmap := Tensor

/-- Elementwise `img.sub(offset)` (external tensor op on the data). -/
def tsub (t : Tensor) (c : ℚ) : Tensor := ⟨t.shape, t.data.map (fun x => x - c)⟩

/-- Elementwise `img.div(offset)` (external tensor op on the data). -/
def tdiv (t : Tensor) (c : ℚ) : Tensor := ⟨t.shape, t.data.map (fun x => x / c)⟩

/-- `normalized.reshape(s)`: same data, new declared shape. -/
def treshape (t : Tensor) (s : List Nat) : Tensor := ⟨s, t.data⟩

/-- The loaded model as `predict` uses it: `model.inputs[0].shape`,
`model.classes` (attached by `loadModel`), and the opaque
`model.predict`. -/
structure ModelSpec where
  inputShape : List Nat
  classes : List String
  predictFn : Tensor → Tensor

/-- The tensor handed to `model.predict` in `predict` (src/index.js lines
46-54): resize to `[shape[1], shape[2]]` with the external
nearest-neighbor collaborator `resizeNN`, normalize by
`(x - 127.5) / 127.5`, reshape to `[1, shape[1], shape[2], shape[3]]`. -/
def batchedInput (resizeNN : Tensor → Nat → Nat → Tensor) (img : Tensor)
    (m : ModelSpec) : Tensor :=
  let h := m.inputShape.getD 1 0
  let w := m.inputShape.getD 2 0
  let c := m.inputShape.getD 3 0
  let resized := resizeNN img h w
  let offset : ℚ := 127.5
  let normalized := tdiv (tsub resized offset) offset
  treshape normalized [1, h, w, c]

/-- `predict(imgElement, model)` (src/index.js lines 43-62): run
`model.predict` on the batched tensor, then rank the flat score vector
against `model.classes`. -/
def predictPipeline (resizeNN : Tensor → Nat → Nat → Tensor) (img : Tensor)
    (m : ModelSpec) : List ScoredClass :=
  getTopKClasses (m.predictFn (batchedInput resizeNN img m)).data m.classes

/-! ## Rejection values

`classify`/`inference` reject in three shapes: ad-hoc objects
`{ error: ... }`, the bare `message` string extracted by `retryOperation`,
and raw thrown exceptions (e.g. `fs.stat` on a missing file). -/

inductive JSReject where
  /-- `Promise.reject({ error: ... })`. -/
  | structured (error : String)
  /-- `reject(message)` with the bare string from `retryOperation`. -/
  | bare (message : String)
  /-- an exception propagated out of an `await` (no `{error}` wrapper). -/
  | thrown (message : String)
  deriving DecidableEq

/-! ## BitmapDecoder dispatch (`inference`, src/index.js lines 212-224) -/

/-- The two sequential `if` statements over `contentType`: `imageBitmap`
starts `undefined` (`none`), `/png/` sets the PNG decode result, then
`/jpe?g/` sets the JPEG decode result. A match of the regex `/jpe?g/` is an
occurrence of the substring `jpg` or `jpeg`. No `else` exists: any other
content type leaves `none`. -/
def decodeDispatch (contentType : String) (png jpeg : Bitmap) : Option Bitmap :=
  let b0 : Option Bitmap := none
  let b1 := if hasSub "png" contentType then some png else b0
  let b2 := if hasSub "jpg" contentType || hasSub "jpeg" contentType then some jpeg else b1
  b2

/-- The tail of `inference` (src/index.js lines 212-228): after the decode
dispatch, `predict(imageBitmap, this.model)` is invoked unconditionally —
also when `imageBitmap` is `undefined` (`none`). `runPredict` is the whole
`predict` call, which may throw (e.g. `tf.browser.fromPixels(undefined)`);
a throw is caught and wrapped as `{ error }`. -/
def inferenceDecode (contentType : String) (png jpeg : Bitmap)
    (runPredict : Option Bitmap → Except String (List ScoredClass)) :
    Except JSReject (List ScoredClass) :=
  match runPredict (decodeDispatch contentType png jpeg) with
  | .ok preds => .ok preds
  | .error e => .error (.structured e)

/-! ## Model loading state (`constructor` / `loadModel`, src/index.js
lines 98-142) -/

/-- The handle state after `loadModel` settles: `this.model` /
`this.error`. The constructor calls `loadModel` without awaiting, so
construction never throws; `this.error` is assigned synchronously (only in
the missing-URL branch), while `this.model` is assigned after the
asynchronous load succeeds. -/
structure TMState where
  model : Option ModelSpec
  error : Option String

/-- Outcome of the awaited body of `loadModel`'s `try` block (src/index.js
lines 110-135), observed at its two assignment points:
line 133 `this.model = await tf.loadLayersModel(modelURL)` and
line 134 `this.model.classes = JSON.parse(body).labels`.
A throw from the metadata fetch/read or from `tf.loadLayersModel` aborts
before line 133 ran (`failedBeforeModel`); a throw from `JSON.parse` at
line 134 happens after `this.model` was already assigned
(`failedAfterModel m`, carrying the loaded model — in JS its `classes`
property stays `undefined` because line 134 threw; no claim settled here
consults the `classes` field of a state's model, only the truthiness of
the `this.model` slot that `checkModel` tests); `ok m` means both
assignments ran. -/
inductive LoadResult where
  | failedBeforeModel (e : String)
  | failedAfterModel (m : ModelSpec) (e : String)
  | ok (m : ModelSpec)

/-- `loadModel({ modelUrl })` (src/index.js lines 103-142). The `catch`
block (lines 138-141) only logs: it assigns neither `this.model` nor
`this.error`, so a failure leaves whatever the `try` block had assigned
before throwing — nothing for `failedBeforeModel`, the model (without
`classes`) for `failedAfterModel`. -/
def loadModel (modelUrl : Option String) (loadResult : LoadResult) :
    TMState :=
  match modelUrl with
  | none => ⟨none, some "Missing model URL!"⟩
  | some u =>
    if u = "" then ⟨none, some "Missing model URL!"⟩
    else
      match loadResult with
      | .ok m => ⟨some m, none⟩
      | .failedAfterModel m _ => ⟨some m, none⟩
      | .failedBeforeModel _ => ⟨none, none⟩

/-! ## ReadinessGate (`retryOperation` + `checkModel`, src/index.js lines
15-30 and 144-152) -/

deriving instance DecidableEq for Except

/-- The settled value of the `retryOperation` promise together with the
total time spent in `wait(delay)` calls. `.ok n` means the operation
succeeded on the n-th attempt, at which point `resolve(cb())` runs the
deferred `inference`; `.error msg` is the bare `message` string of the last
rejection. -/
structure RetryOutcome where
  result : Except String Nat
  waitTime : Nat
  deriving DecidableEq

/-- `retryOperation(operation, delay, times)` specialised to
`operation = () => this.checkModel(() => this.inference(params))`
(src/index.js line 174). `checkModel` resolves `{ cb }` iff `this.model`
is truthy at that poll (`ready attempt`), else rejects
`{ message: "Loading model" }`. The budget check `times - 1 > 0` holds iff
`times ≥ 2`, hence the three-way match on `times`; polls are numbered from
1 by `attempt`. -/
def retryOperation (ready : Nat → Bool) (delay : Nat) :
    Nat → Nat → RetryOutcome
  | 0, attempt =>
    if ready attempt then ⟨.ok attempt, 0⟩ else ⟨.error "Loading model", 0⟩
  | 1, attempt =>
    if ready attempt then ⟨.ok attempt, 0⟩ else ⟨.error "Loading model", 0⟩
  | times + 2, attempt =>
    if ready attempt then ⟨.ok attempt, 0⟩
    else
      let r := retryOperation ready delay (times + 1) (attempt + 1)
      ⟨r.result, delay + r.waitTime⟩

/-! ## `classify` (src/index.js lines 155-175) -/

/-- The settled value of the `classify` promise: `.ok n` means the
readiness gate passed on poll `n` and `inference(params)` was invoked;
`waitTime` is the total time spent in retry delays before settling. -/
structure ClassifyOutcome where
  result : Except JSReject Nat
  waitTime : Nat
  deriving DecidableEq

/-- `classify({ imageUrl })` (src/index.js lines 155-175), in source
order: (1) reject `{error: "Image URL is not valid!"}` when the URL
matches none of file-pattern / data-prefix / `isImageUrl`; (2) for a
file-pattern URL, `await fs.stat(...)` — which throws when the path is
missing or not a `file:` URL (`fileExists = false`); the guarded
`if (!stats)` branch is unreachable because `fs.stat` never resolves with
a falsy value; (3) reject `{error: this.error}` when a construction error
was recorded; (4) otherwise enter
`retryOperation(() => checkModel(() => inference(params)), 1000, 20)`. -/
def classify (st : TMState) (isImg : String → Bool) (fileExists : Bool)
    (ready : Nat → Bool) (imageUrl : String) : ClassifyOutcome :=
  if !fileTest imageUrl && !dataTest imageUrl && !isImg imageUrl then
    ⟨.error (.structured "Image URL is not valid!"), 0⟩
  else if fileTest imageUrl && !fileExists then
    ⟨.error (.thrown "ENOENT: no such file or directory"), 0⟩
  else
    match st.error with
    | some e => ⟨.error (.structured e), 0⟩
    | none =>
      let r := retryOperation ready 1000 20 1
      ⟨r.result.mapError .bare, r.waitTime⟩

/-! ## ImageSource variant dispatch (`inference`, src/index.js lines
184-210) -/

/-- The three image-source variants of the spec's `ImageLocator`. -/
inductive Locator where
  | embedded
  | localPath
  | remote
  deriving DecidableEq

/-- The `if / else if / else` dispatch at the top of `inference`
(src/index.js lines 184-210): data-URL prefix first, then the `file:///`
pattern, else treat as a remote URL. -/
def classifyLocator (s : String) : Locator :=
  if dataTest s then .embedded
  else if fileTest s then .localPath
  else .remote

/-! ## Helper lemmas: the retry loop -/

/-- If the model first becomes ready on poll `N` within the remaining
budget, the retry loop succeeds on attempt `N` after `N - attempt` waits of
length `delay`. -/
theorem retryOperation_success (ready : Nat → Bool) (delay : ℕ) :
    ∀ times attempt N : ℕ, attempt ≤ N → N + 1 ≤ attempt + times →
      (∀ i, i < N → ready i = false) → ready N = true →
      retryOperation ready delay times attempt = ⟨.ok N, (N - attempt) * delay⟩ := by
  intro times
  induction times with
  | zero => intro attempt N h1 h2 _ _; omega
  | succ t ih =>
    intro attempt N h1 h2 hbefore hN
    have hcase : attempt = N ∨ attempt < N := by omega
    cases hcase with
    | inl heq =>
      obtain rfl : N = attempt := by omega
      match t with
      | 0 => simp [retryOperation, hN, Nat.sub_self]
      | 1 => simp [retryOperation, hN, Nat.sub_self]
      | t' + 2 => simp [retryOperation, hN, Nat.sub_self]
    | inr hlt =>
      have hra : ready attempt = false := hbefore attempt hlt
      match t with
      | 0 => omega
      | t' + 1 =>
        have hrec := ih (attempt + 1) N (by omega) (by omega) hbefore hN
        have hmul : (N - (attempt + 1)) * delay + delay = (N - attempt) * delay := by
          have h : N - attempt = (N - (attempt + 1)) + 1 := by omega
          rw [h, Nat.succ_mul]
        simp only [retryOperation, hra, Bool.false_eq_true, if_false, hrec]
        exact congrArg _ (by omega)

/-- If the model is never ready during the attempt window, the retry loop
rejects with the bare `"Loading model"` message after `times - 1` waits. -/
theorem retryOperation_exhaust (ready : Nat → Bool) (delay : ℕ) :
    ∀ times attempt : ℕ, 1 ≤ times →
      (∀ i, i < attempt + times → ready i = false) →
      retryOperation ready delay times attempt =
        ⟨.error "Loading model", (times - 1) * delay⟩ := by
  intro times
  induction times with
  | zero => intro attempt h; omega
  | succ t ih =>
    intro attempt _ hfalse
    have hra : ready attempt = false := hfalse attempt (by omega)
    match t with
    | 0 => simp [retryOperation, hra]
    | t' + 1 =>
      have hrec := ih (attempt + 1) (by omega) (fun i hi => hfalse i (by omega))
      simp only [retryOperation, hra, Bool.false_eq_true, if_false, hrec]
      refine congrArg _ ?_
      have h : t' + 1 - 1 = t' := by omega
      rw [h]
      have h2 : t' + 1 + 1 - 1 = t' + 1 := by omega
      rw [h2, Nat.succ_mul]
      omega

/-- When the image URL passes validation, the file check passes (when
applicable), and no construction error is recorded, `classify` is exactly
the readiness-gated retry loop. -/
theorem classify_eq_retry (st : TMState) (isImg : String → Bool)
    (fileExists : Bool) (ready : Nat → Bool) (imageUrl : String)
    (hvalid : (fileTest imageUrl || dataTest imageUrl || isImg imageUrl) = true)
    (hfile : fileTest imageUrl = true → fileExists = true)
    (herr : st.error = none) :
    classify st isImg fileExists ready imageUrl =
      ⟨(retryOperation ready 1000 20 1).result.mapError .bare,
       (retryOperation ready 1000 20 1).waitTime⟩ := by
  unfold classify
  cases hf : fileTest imageUrl with
  | true =>
    have hfe : fileExists = true := hfile hf
    simp [hf, hfe, herr]
  | false =>
    cases hd : dataTest imageUrl with
    | true => simp [hf, hd, herr]
    | false =>
      cases hi : isImg imageUrl with
      | true => simp [hf, hd, hi, herr]
      | false => simp [hf, hd, hi] at hvalid

/-! ## Helper lemmas: the ranking sort -/

/-- The ordering the sorted pair list satisfies: value strictly descending,
or equal values with original index ascending. -/
def ordRel (a b : ScoredPair) : Prop :=
  b.value < a.value ∨ (a.value = b.value ∧ a.index < b.index)

theorem mem_sortedInsert (x y : ScoredPair) :
    ∀ l : List ScoredPair, y ∈ sortedInsert x l ↔ y = x ∨ y ∈ l := by
  intro l
  induction l with
  | nil => simp [sortedInsert]
  | cons z l ih =>
    by_cases h : z.value ≤ x.value
    · simp [sortedInsert, h]
    · simp only [sortedInsert, if_neg h, List.mem_cons, ih]
      tauto

theorem sortedInsert_perm (x : ScoredPair) :
    ∀ l : List ScoredPair, List.Perm (sortedInsert x l) (x :: l) := by
  intro l
  induction l with
  | nil => simp [sortedInsert]
  | cons z l ih =>
    by_cases h : z.value ≤ x.value
    · simp [sortedInsert, h]
    · simp only [sortedInsert, if_neg h]
      exact (ih.cons z).trans (List.Perm.swap x z l)

theorem sortPairs_perm : ∀ l : List ScoredPair, List.Perm (sortPairs l) l := by
  intro l
  induction l with
  | nil => simp [sortPairs]
  | cons x l ih =>
    exact (sortedInsert_perm x (sortPairs l)).trans (ih.cons x)

theorem pairwise_sortedInsert (x : ScoredPair) :
    ∀ l : List ScoredPair, l.Pairwise ordRel →
      (∀ y ∈ l, x.index < y.index) → (sortedInsert x l).Pairwise ordRel := by
  intro l
  induction l with
  | nil => intro _ _; simp [sortedInsert, List.Pairwise]
  | cons y l ih =>
    intro hp hx
    rw [List.pairwise_cons] at hp
    obtain ⟨hy, hl⟩ := hp
    by_cases h : y.value ≤ x.value
    · rw [sortedInsert, if_pos h, List.pairwise_cons]
      refine ⟨?_, by rw [List.pairwise_cons]; exact ⟨hy, hl⟩⟩
      intro z hz
      rcases List.mem_cons.mp hz with rfl | hzl
      · rcases lt_or_eq_of_le h with hlt | heq
        · exact Or.inl hlt
        · exact Or.inr ⟨heq.symm, hx z (List.mem_cons_self z l)⟩
      · have hyz := hy z hzl
        have hzval : z.value ≤ y.value := by
          rcases hyz with h1 | h1
          · exact le_of_lt h1
          · exact le_of_eq h1.1.symm
        rcases lt_or_eq_of_le (le_trans hzval h) with hlt | heq
        · exact Or.inl hlt
        · exact Or.inr ⟨heq.symm, hx z (List.mem_cons_of_mem y hzl)⟩
    · rw [sortedInsert, if_neg h, List.pairwise_cons]
      constructor
      · intro z hz
        rcases (mem_sortedInsert x z l).mp hz with rfl | hzl
        · exact Or.inl (lt_of_not_le h)
        · exact hy z hzl
      · exact ih hl (fun z hz => hx z (List.mem_cons_of_mem y hz))

theorem pairwise_sortPairs :
    ∀ l : List ScoredPair, l.Pairwise (fun a b => a.index < b.index) →
      (sortPairs l).Pairwise ordRel := by
  intro l
  induction l with
  | nil => intro _; simp [sortPairs, List.Pairwise]
  | cons x l ih =>
    intro hp
    rw [List.pairwise_cons] at hp
    obtain ⟨hx, hl⟩ := hp
    refine pairwise_sortedInsert x (sortPairs l) (ih hl) ?_
    intro y hy
    exact hx y ((sortPairs_perm l).mem_iff.mp hy)

theorem enumFrom_index_ge :
    ∀ (vs : List ℚ) (i : Nat), ∀ p ∈ enumFrom i vs, i ≤ p.index := by
  intro vs
  induction vs with
  | nil => intro i p hp; simp [enumFrom] at hp
  | cons v vs ih =>
    intro i p hp
    rcases List.mem_cons.mp hp with rfl | hp'
    · exact le_refl _
    · exact le_trans (by omega) (ih (i + 1) p hp')

theorem enumFrom_pairwise :
    ∀ (vs : List ℚ) (i : Nat),
      (enumFrom i vs).Pairwise (fun a b => a.index < b.index) := by
  intro vs
  induction vs with
  | nil => intro i; simp [enumFrom]
  | cons v vs ih =>
    intro i
    rw [enumFrom, List.pairwise_cons]
    refine ⟨fun p hp => ?_, ih (i + 1)⟩
    have h := enumFrom_index_ge vs (i + 1) p hp
    show i < p.index
    omega

theorem enumFrom_length : ∀ (vs : List ℚ) (i : Nat), (enumFrom i vs).length = vs.length := by
  intro vs
  induction vs with
  | nil => intro i; rfl
  | cons v vs ih => intro i; simp [enumFrom, ih]

/-- When the image URL passes validation and the file check, but a
construction error is recorded, `classify` rejects `{ error: this.error }`
immediately, performing no retry. -/
theorem classify_stored_error (st : TMState) (isImg : String → Bool)
    (fileExists : Bool) (ready : Nat → Bool) (imageUrl : String) (e : String)
    (hvalid : (fileTest imageUrl || dataTest imageUrl || isImg imageUrl) = true)
    (hfile : fileTest imageUrl = true → fileExists = true)
    (herr : st.error = some e) :
    classify st isImg fileExists ready imageUrl =
      ⟨.error (.structured e), 0⟩ := by
  unfold classify
  cases hf : fileTest imageUrl with
  | true =>
    have hfe : fileExists = true := hfile hf
    simp [hf, hfe, herr]
  | false =>
    cases hd : dataTest imageUrl with
    | true => simp [hf, hd, herr]
    | false =>
      cases hi : isImg imageUrl with
      | true => simp [hf, hd, hi, herr]
      | false => simp [hf, hd, hi] at hvalid

/-! ## The claims -/

/-- C1, counterexample: the claim says that once the model load has
terminally failed, every subsequent `classify` fails immediately with the
stored load error, with zero retry delay and without consuming the retry
budget. On the code this is false: a load that fails by a thrown error
(here a network failure while fetching the model) stores nothing — the
`catch` block only logs — so a later `classify` with a valid image URL
consumes the entire retry budget (19 waits of 1000, i.e. 19000 time-units)
and rejects with the bare `"Loading model"` message, not with the load
error. -/
theorem c1_counterexample :
    (loadModel (some "https://example.com/model/")
      (.failedBeforeModel "network failure")).error = none ∧
    classify (loadModel (some "https://example.com/model/")
        (.failedBeforeModel "network failure"))
        (fun _ => true) true (fun _ => false) "https://example.com/cat.png" =
      ⟨.error (.bare "Loading model"), 19000⟩ := by
  constructor
  · rfl
  · decide

/-- C1, amended: no thrown load failure stores a load error on the handle
(the `catch` only logs); only the missing-model-URL failure is recorded
(that case is claim C7). A load failure thrown before `this.model` is
assigned at line 133 — a metadata fetch/read failure or a
`tf.loadLayersModel` failure — leaves both `this.model` and `this.error`
unset, so a subsequent `classify` call with a valid image URL (the model
slot never filling, i.e. a never-ready history) runs the full readiness
retry loop — 19 delays of 1000 time-units — and rejects with the bare
`"Loading model"` message instead of the load error. A metadata
`JSON.parse` failure thrown at line 134, after `this.model` was assigned,
leaves a truthy model with no stored error: with the corresponding
always-ready history, a subsequent `classify` call passes `checkModel` on
the first poll with zero retry delay and proceeds to inference — again not
failing with any stored load error. -/
theorem c1_load_failure_not_short_circuited
    (u e : String) (m : ModelSpec) (isImg : String → Bool) (fileExists : Bool)
    (imageUrl : String)
    (hu : u ≠ "")
    (hvalid : (fileTest imageUrl || dataTest imageUrl || isImg imageUrl) = true)
    (hfile : fileTest imageUrl = true → fileExists = true) :
    ((loadModel (some u) (.failedBeforeModel e)).error = none ∧
     (loadModel (some u) (.failedBeforeModel e)).model = none ∧
     ∀ ready : Nat → Bool, (∀ i, ready i = false) →
       classify (loadModel (some u) (.failedBeforeModel e))
           isImg fileExists ready imageUrl =
         ⟨.error (.bare "Loading model"), 19000⟩) ∧
    ((loadModel (some u) (.failedAfterModel m e)).error = none ∧
     (loadModel (some u) (.failedAfterModel m e)).model = some m ∧
     ∀ ready : Nat → Bool, (∀ i, ready i = true) →
       classify (loadModel (some u) (.failedAfterModel m e))
           isImg fileExists ready imageUrl =
         ⟨.ok 1, 0⟩) := by
  have hbefore : loadModel (some u) (.failedBeforeModel e) = ⟨none, none⟩ := by
    simp [loadModel, hu]
  have hafter : loadModel (some u) (.failedAfterModel m e) = ⟨some m, none⟩ := by
    simp [loadModel, hu]
  constructor
  · rw [hbefore]
    refine ⟨rfl, rfl, ?_⟩
    intro ready hready
    rw [classify_eq_retry _ _ _ _ _ hvalid hfile rfl]
    rw [retryOperation_exhaust ready 1000 20 1 (by omega) (fun i _ => hready i)]
    rfl
  · rw [hafter]
    refine ⟨rfl, rfl, ?_⟩
    intro ready hready
    rw [classify_eq_retry _ _ _ _ _ hvalid hfile rfl]
    have h1 : ready 1 = true := hready 1
    simp [retryOperation, h1, Except.mapError]

/-- C1, witness for the amended theorem: a concrete metadata fetch failure
(nothing assigned, full 19000 of retry delay, bare message) and a concrete
metadata parse failure (model assigned at line 133, first-poll pass with
zero delay), each with a concrete valid image URL. -/
theorem c1_witness :
    ((loadModel (some "https://models.example.org/m/")
        (.failedBeforeModel "fetch failed")).error = none ∧
     classify (loadModel (some "https://models.example.org/m/")
          (.failedBeforeModel "fetch failed"))
         (fun _ => true) true (fun _ => false) "https://example.org/dog.jpg" =
       ⟨.error (.bare "Loading model"), 19000⟩) ∧
    ((loadModel (some "https://models.example.org/m/")
        (.failedAfterModel ⟨[1, 2, 2, 3], ["a"], id⟩ "Unexpected token")).model =
       some ⟨[1, 2, 2, 3], ["a"], id⟩ ∧
     classify (loadModel (some "https://models.example.org/m/")
          (.failedAfterModel ⟨[1, 2, 2, 3], ["a"], id⟩ "Unexpected token"))
         (fun _ => true) true (fun _ => true) "https://example.org/dog.jpg" =
       ⟨.ok 1, 0⟩) :=
  ⟨⟨(c1_load_failure_not_short_circuited "https://models.example.org/m/"
       "fetch failed" ⟨[1, 2, 2, 3], ["a"], id⟩ (fun _ => true) true
       "https://example.org/dog.jpg" (by decide) (by decide) (by decide)).1.1,
    (c1_load_failure_not_short_circuited "https://models.example.org/m/"
       "fetch failed" ⟨[1, 2, 2, 3], ["a"], id⟩ (fun _ => true) true
       "https://example.org/dog.jpg" (by decide) (by decide) (by decide)).1.2.2
      (fun _ => false) (fun _ => rfl)⟩,
   ⟨(c1_load_failure_not_short_circuited "https://models.example.org/m/"
       "Unexpected token" ⟨[1, 2, 2, 3], ["a"], id⟩ (fun _ => true) true
       "https://example.org/dog.jpg" (by decide) (by decide) (by decide)).2.2.1,
    (c1_load_failure_not_short_circuited "https://models.example.org/m/"
       "Unexpected token" ⟨[1, 2, 2, 3], ["a"], id⟩ (fun _ => true) true
       "https://example.org/dog.jpg" (by decide) (by decide) (by decide)).2.2.2
      (fun _ => true) (fun _ => rfl)⟩⟩

/-- C2, counterexample: the claim says a sorted pair whose index is
`≥ labels.length` is skipped rather than emitted. On the code this is
false: with scores `[0, 0, 0, 10, 20]` and labels `["a", "b", "c"]`, the
two highest sorted pairs have indices 4 and 3, and `getTopKClasses` emits
them with `classes[4]` / `classes[3]` — the JS `undefined` (`none`) — as
the class name, instead of skipping them and emitting labels `a`, `b`,
`c`. -/
theorem c2_counterexample :
    getTopKClasses [0, 0, 0, 10, 20] ["a", "b", "c"] =
      [⟨none, 20⟩, ⟨none, 10⟩, ⟨some "a", 0⟩] := by
  decide

/-- C2, amended: `getTopKClasses` returns exactly
`min(labels.length, scores.length)` entries — the first `k` sorted pairs,
regardless of their indices. A pair whose index is out of the label range
is emitted with an absent (`undefined` / `none`) class name from the
unguarded JS index read, not skipped; no lookup past the label list
crashes, because every emitted entry arises from such a guarded-in-the-model
`labels[index]?` read of a sorted pair. -/
theorem c2_truncation_amended (values : List ℚ) (classes : List String) :
    (getTopKClasses values classes).length = min classes.length values.length ∧
    ∀ e ∈ getTopKClasses values classes,
      ∃ p ∈ sortPairs (enumFrom 0 values), e = ⟨classes[p.index]?, p.value⟩ := by
  constructor
  · unfold getTopKClasses
    rw [List.length_map, List.length_take]
    have hlen : (sortPairs (enumFrom 0 values)).length = values.length := by
      rw [(sortPairs_perm _).length_eq, enumFrom_length]
    rw [hlen]
    omega
  · intro e he
    unfold getTopKClasses at he
    rw [List.mem_map] at he
    obtain ⟨p, hp, he⟩ := he
    exact ⟨p, List.take_subset _ _ hp, he.symm⟩

/-- C2, witness: the amended theorem at scores `[1, 2]` and the single
label `["a"]`: one entry is returned and it comes from the top sorted pair
(index 1, out of label range, hence class `none`). -/
theorem c2_witness :
    (getTopKClasses [(1 : ℚ), 2] ["a"]).length = min 1 2 ∧
    ∃ p ∈ sortPairs (enumFrom 0 [(1 : ℚ), 2]),
      (⟨none, (2 : ℚ)⟩ : ScoredClass) = ⟨["a"][p.index]?, p.value⟩ :=
  ⟨(c2_truncation_amended [1, 2] ["a"]).1,
   (c2_truncation_amended [1, 2] ["a"]).2 ⟨none, 2⟩ (by decide)⟩

/-- C3: the claim (and spec §4.3/§9) requires that a content type that is
neither PNG nor JPEG-family yields a decode error and that inference is
never attempted with an absent bitmap. The code violates this: for content
type `"image/gif"` the two decode `if`s leave `imageBitmap` undefined
(`none`) and `inference` still calls `predict(imageBitmap, this.model)` —
the call's outcome is whatever the prediction step does with an absent
bitmap (wrapped as `{error}` only if it throws), not a decode error raised
before inference. The spec's §9 marks this silent fallthrough as
unintended, so the code, not the claim, is wrong. -/
theorem c3_decode_fallthrough :
    ∀ (png jpeg : Bitmap)
      (runPredict : Option Bitmap → Except String (List ScoredClass)),
      decodeDispatch "image/gif" png jpeg = none ∧
      inferenceDecode "image/gif" png jpeg runPredict =
        (match runPredict none with
         | .ok preds => .ok preds
         | .error e => .error (.structured e)) := by
  intro png jpeg runPredict
  have h1 : hasSub "png" "image/gif" = false := by decide
  have h2 : hasSub "jpg" "image/gif" = false := by decide
  have h3 : hasSub "jpeg" "image/gif" = false := by decide
  have hd : decodeDispatch "image/gif" png jpeg = none := by
    simp [decodeDispatch, h1, h2, h3]
  refine ⟨hd, ?_⟩
  unfold inferenceDecode
  rw [hd]

/-- C4: image-locator classification is total and mutually exclusive.
Any string matching none of the file-pattern / data-prefix / image-URL
tests is rejected with the invalid-input error before any I/O (the result
is independent of the filesystem, the model state and the readiness
history, and no retry delay is consumed); every string that reaches the
dispatch is assigned exactly one variant: `Embedded` iff it has the
`data:image/` prefix, `LocalPath` iff it matches the `file:///` pattern and
is not data-prefixed, and `Remote` otherwise. -/
theorem c4_locator_totality (isImg : String → Bool) (s : String) :
    ((fileTest s || dataTest s || isImg s) = false →
      ∀ (st : TMState) (fileExists : Bool) (ready : Nat → Bool),
        classify st isImg fileExists ready s =
          ⟨.error (.structured "Image URL is not valid!"), 0⟩) ∧
    (classifyLocator s = .embedded ↔ dataTest s = true) ∧
    (classifyLocator s = .localPath ↔ (dataTest s = false ∧ fileTest s = true)) ∧
    (classifyLocator s = .remote ↔ (dataTest s = false ∧ fileTest s = false)) := by
  refine ⟨?_, ?_, ?_, ?_⟩
  · intro h st fileExists ready
    simp only [Bool.or_eq_false_iff] at h
    obtain ⟨⟨h1, h2⟩, h3⟩ := h
    simp [classify, h1, h2, h3]
  all_goals
    cases hd : dataTest s <;> cases hf : fileTest s <;>
      simp [classifyLocator, hd, hf]

/-- C4, witness: a string failing all three tests is rejected immediately,
for an arbitrary concrete state, filesystem and readiness history. -/
theorem c4_witness :
    classify ⟨none, none⟩ (fun _ => false) true (fun _ => true) "not an image" =
      ⟨.error (.structured "Image URL is not valid!"), 0⟩ :=
  (c4_locator_totality (fun _ => false) "not an image").1 (by decide)
    ⟨none, none⟩ true (fun _ => true)

/-- C5: readiness gating. For a call that passes validation on an instance
with no recorded error: if the model first becomes ready on the `N`-th poll
with `1 ≤ N ≤ 20`, `classify` succeeds on attempt `N` after exactly
`(N - 1)` fixed delays of 1000 time-units; if the model is never ready
within the 20-attempt budget, `classify` fails with the timeout rejection
(the `"Loading model"` message) after the 19 inter-attempt delays. -/
theorem c5_readiness_gating (st : TMState) (isImg : String → Bool)
    (fileExists : Bool) (imageUrl : String)
    (herr : st.error = none)
    (hvalid : (fileTest imageUrl || dataTest imageUrl || isImg imageUrl) = true)
    (hfile : fileTest imageUrl = true → fileExists = true) :
    (∀ (N : Nat) (ready : Nat → Bool), 1 ≤ N → N ≤ 20 →
      (∀ i, i < N → ready i = false) → ready N = true →
      classify st isImg fileExists ready imageUrl = ⟨.ok N, (N - 1) * 1000⟩) ∧
    (∀ ready : Nat → Bool, (∀ i, i < 21 → ready i = false) →
      classify st isImg fileExists ready imageUrl =
        ⟨.error (.bare "Loading model"), 19000⟩) := by
  constructor
  · intro N ready h1 h20 hb hN
    rw [classify_eq_retry st isImg fileExists ready imageUrl hvalid hfile herr]
    rw [retryOperation_success ready 1000 20 1 N h1 (by omega) hb hN]
    rfl
  · intro ready hready
    rw [classify_eq_retry st isImg fileExists ready imageUrl hvalid hfile herr]
    rw [retryOperation_exhaust ready 1000 20 1 (by omega)
      (fun i hi => hready i (by omega))]
    rfl

/-- C5, witness: with the model first ready on poll 3, `classify` succeeds
on attempt 3 after two 1000-unit delays; with the model never ready, it
rejects with `"Loading model"` after 19 delays. -/
theorem c5_witness :
    classify ⟨none, none⟩ (fun _ => true) true (fun i => decide (3 ≤ i))
        "https://example.org/dog.jpg" = ⟨.ok 3, 2000⟩ ∧
    classify ⟨none, none⟩ (fun _ => true) true (fun _ => false)
        "https://example.org/dog.jpg" =
      ⟨.error (.bare "Loading model"), 19000⟩ :=
  ⟨(c5_readiness_gating ⟨none, none⟩ (fun _ => true) true
      "https://example.org/dog.jpg" rfl (by decide) (by decide)).1
      3 (fun i => decide (3 ≤ i)) (by decide) (by decide) (by decide) (by decide),
   (c5_readiness_gating ⟨none, none⟩ (fun _ => true) true
      "https://example.org/dog.jpg" rfl (by decide) (by decide)).2
      (fun _ => false) (by decide)⟩

/-- C6: the sorted pair list produced inside `getTopKClasses` is ordered by
value strictly descending with ties broken by original index ascending
(first-seen-wins stability of the JS sort); consequently the ranked output
scores are non-increasing; and on scores `[0.5, 0.5]` with labels
`["a", "b"]` the ranking is `[{a, 0.5}, {b, 0.5}]`. -/
theorem c6_sort_descending_stable :
    (∀ values : List ℚ, (sortPairs (enumFrom 0 values)).Pairwise ordRel) ∧
    (∀ (values : List ℚ) (classes : List String),
      (getTopKClasses values classes).Pairwise fun a b => b.score ≤ a.score) ∧
    getTopKClasses [1 / 2, 1 / 2] ["a", "b"] =
      [⟨some "a", 1 / 2⟩, ⟨some "b", 1 / 2⟩] := by
  refine ⟨?_, ?_, ?_⟩
  · intro values
    exact pairwise_sortPairs _ (enumFrom_pairwise values 0)
  · intro values classes
    have hp : (sortPairs (enumFrom 0 values)).Pairwise ordRel :=
      pairwise_sortPairs _ (enumFrom_pairwise values 0)
    have hpt : ((sortPairs (enumFrom 0 values)).take
        (min classes.length values.length)).Pairwise ordRel :=
      hp.sublist (List.take_sublist _ _)
    unfold getTopKClasses
    rw [List.pairwise_map]
    refine hpt.imp ?_
    intro a b hab
    rcases hab with h | h
    · exact le_of_lt h
    · exact le_of_eq h.1.symm
  · norm_num [getTopKClasses, sortPairs, sortedInsert, enumFrom]

/-- C7: with a missing or empty model locator, construction does not throw
(`loadModel` is a total function on the state): the handle permanently
records the missing-model-URL error and never holds a model, and every
subsequent `classify` call that passes image validation fails immediately
with the stored `"Missing model URL!"` error — zero retry delay, for every
readiness history, whatever the (never consulted) load outcome. -/
theorem c7_missing_model_url
    (modelUrl : Option String) (loadRes : LoadResult)
    (isImg : String → Bool) (fileExists : Bool) (ready : Nat → Bool)
    (imageUrl : String)
    (hmu : modelUrl = none ∨ modelUrl = some "")
    (hvalid : (fileTest imageUrl || dataTest imageUrl || isImg imageUrl) = true)
    (hfile : fileTest imageUrl = true → fileExists = true) :
    (loadModel modelUrl loadRes).error = some "Missing model URL!" ∧
    (loadModel modelUrl loadRes).model = none ∧
    classify (loadModel modelUrl loadRes) isImg fileExists ready imageUrl =
      ⟨.error (.structured "Missing model URL!"), 0⟩ := by
  have hst : loadModel modelUrl loadRes = ⟨none, some "Missing model URL!"⟩ := by
    rcases hmu with rfl | rfl <;> simp [loadModel]
  rw [hst]
  exact ⟨rfl, rfl,
    classify_stored_error _ _ _ _ _ _ hvalid hfile rfl⟩

/-- C7, witness: an instance built with the empty model URL rejects a
classify call for a valid remote image immediately with the stored error,
even with a readiness history that is always ready. -/
theorem c7_witness :
    (loadModel (some "") (.failedBeforeModel "load never ran")).error =
      some "Missing model URL!" ∧
    (loadModel (some "") (.failedBeforeModel "load never ran")).model = none ∧
    classify (loadModel (some "") (.failedBeforeModel "load never ran"))
        (fun _ => true) true (fun _ => true) "https://example.org/dog.jpg" =
      ⟨.error (.structured "Missing model URL!"), 0⟩ :=
  c7_missing_model_url (some "") (.failedBeforeModel "load never ran")
    (fun _ => true) true (fun _ => true) "https://example.org/dog.jpg"
    (Or.inr rfl) (by decide) (by decide)

/-- C8: the prediction preprocessing. The tensor handed to `model.predict`
has the single-item batch shape `[1, h, w, c]` taken from the model's
declared input shape; its data is the output of the (external
nearest-neighbor) resize to the declared `h × w`, normalized pointwise by
`(x - 127.5) / 127.5`; that map sends every value of `[0, 255]` into
`[-1, 1]`; and `predict` runs `model.predict` on exactly this batched
tensor before ranking. -/
theorem c8_preprocess (resizeNN : Tensor → Nat → Nat → Tensor)
    (img : Tensor) (m : ModelSpec) :
    (batchedInput resizeNN img m).shape =
      [1, m.inputShape.getD 1 0, m.inputShape.getD 2 0, m.inputShape.getD 3 0] ∧
    (batchedInput resizeNN img m).data =
      (resizeNN img (m.inputShape.getD 1 0) (m.inputShape.getD 2 0)).data.map
        (fun x => (x - 127.5) / 127.5) ∧
    (∀ x : ℚ, 0 ≤ x → x ≤ 255 →
      -1 ≤ (x - 127.5) / 127.5 ∧ (x - 127.5) / 127.5 ≤ 1) ∧
    predictPipeline resizeNN img m =
      getTopKClasses (m.predictFn (batchedInput resizeNN img m)).data m.classes := by
  refine ⟨rfl, ?_, ?_, rfl⟩
  · simp only [batchedInput, tdiv, tsub, treshape, List.map_map]
    rfl
  · intro x h0 h255
    constructor
    · rw [le_div_iff₀ (by norm_num : (0 : ℚ) < 127.5)]
      linarith
    · rw [div_le_one (by norm_num : (0 : ℚ) < 127.5)]
      linarith

/-- C8, witness: at a concrete bitmap, identity resize collaborator and a
concrete model with input shape `[1, 2, 2, 3]`, the batched tensor carries
the declared shape, and the extreme pixel values 0 and 255 normalize into
`[-1, 1]`. -/
theorem c8_witness :
    (batchedInput (fun t _ _ => t) ⟨[2, 2, 3], [0, 255]⟩
        ⟨[1, 2, 2, 3], ["a"], id⟩).shape = [1, 2, 2, 3] ∧
    -1 ≤ ((0 : ℚ) - 127.5) / 127.5 ∧ ((255 : ℚ) - 127.5) / 127.5 ≤ 1 :=
  ⟨(c8_preprocess (fun t _ _ => t) ⟨[2, 2, 3], [0, 255]⟩ ⟨[1, 2, 2, 3], ["a"], id⟩).1,
   ((c8_preprocess (fun t _ _ => t) ⟨[2, 2, 3], [0, 255]⟩
      ⟨[1, 2, 2, 3], ["a"], id⟩).2.2.1 0 (by norm_num) (by norm_num)).1,
   ((c8_preprocess (fun t _ _ => t) ⟨[2, 2, 3], [0, 255]⟩
      ⟨[1, 2, 2, 3], ["a"], id⟩).2.2.1 255 (by norm_num) (by norm_num)).2⟩

/-- C9: `classify` runs its three prechecks — image-URL validation, the
local-file existence check, and the stored construction-error check — in
that order, all before the readiness retry loop: an invalid image URL is
rejected for every state and readiness history with zero wait; a
file-pattern URL whose path check fails is rejected (as the propagated
`fs.stat` exception) with zero wait; and a recorded construction error is
rejected with zero wait — in each case even while the model is still
loading (the readiness history is universally quantified and never
consulted). -/
theorem c9_prechecks_before_retry (st : TMState) (isImg : String → Bool)
    (fileExists : Bool) (ready : Nat → Bool) (imageUrl : String) :
    ((fileTest imageUrl || dataTest imageUrl || isImg imageUrl) = false →
      classify st isImg fileExists ready imageUrl =
        ⟨.error (.structured "Image URL is not valid!"), 0⟩) ∧
    (fileTest imageUrl = true → fileExists = false →
      classify st isImg fileExists ready imageUrl =
        ⟨.error (.thrown "ENOENT: no such file or directory"), 0⟩) ∧
    (∀ e, st.error = some e →
      (fileTest imageUrl || dataTest imageUrl || isImg imageUrl) = true →
      (fileTest imageUrl = true → fileExists = true) →
      classify st isImg fileExists ready imageUrl =
        ⟨.error (.structured e), 0⟩) := by
  refine ⟨?_, ?_, ?_⟩
  · intro h
    simp only [Bool.or_eq_false_iff] at h
    obtain ⟨⟨h1, h2⟩, h3⟩ := h
    simp [classify, h1, h2, h3]
  · intro h1 h2
    simp [classify, h1, h2]
  · intro e he hvalid hfile
    exact classify_stored_error st isImg fileExists ready imageUrl e hvalid hfile he

/-- C9, witness: the three precheck rejections at concrete inputs, each
with an always-false (still-loading) readiness history and zero wait. -/
theorem c9_witness :
    classify ⟨none, none⟩ (fun _ => false) true (fun _ => false) "not an image" =
      ⟨.error (.structured "Image URL is not valid!"), 0⟩ ∧
    classify ⟨none, none⟩ (fun _ => false) false (fun _ => false)
        "file:///tmp/missing.png" =
      ⟨.error (.thrown "ENOENT: no such file or directory"), 0⟩ ∧
    classify ⟨none, some "Missing model URL!"⟩ (fun _ => true) true (fun _ => false)
        "https://example.org/dog.jpg" =
      ⟨.error (.structured "Missing model URL!"), 0⟩ :=
  ⟨(c9_prechecks_before_retry ⟨none, none⟩ (fun _ => false) true
      (fun _ => false) "not an image").1 (by decide),
   (c9_prechecks_before_retry ⟨none, none⟩ (fun _ => false) false
      (fun _ => false) "file:///tmp/missing.png").2.1 (by decide) rfl,
   (c9_prechecks_before_retry ⟨none, some "Missing model URL!"⟩ (fun _ => true) true
      (fun _ => false) "https://example.org/dog.jpg").2.2
      "Missing model URL!" rfl (by decide) (by decide)⟩

/-- C10: when the readiness retry budget exhausts, `classify` rejects with
the bare string `"Loading model"` — the `message` field destructured from
`checkModel`'s rejection object by `retryOperation`'s catch — and not with
a structured `{ error: ... }` object like every other failure path. -/
theorem c10_timeout_bare_message (st : TMState) (isImg : String → Bool)
    (fileExists : Bool) (ready : Nat → Bool) (imageUrl : String)
    (herr : st.error = none)
    (hvalid : (fileTest imageUrl || dataTest imageUrl || isImg imageUrl) = true)
    (hfile : fileTest imageUrl = true → fileExists = true)
    (hready : ∀ i, i < 21 → ready i = false) :
    classify st isImg fileExists ready imageUrl =
      ⟨.error (.bare "Loading model"), 19000⟩ ∧
    ∀ msg, (classify st isImg fileExists ready imageUrl).result ≠
      .error (.structured msg) := by
  have h := classify_eq_retry st isImg fileExists ready imageUrl hvalid hfile herr
  rw [retryOperation_exhaust ready 1000 20 1 (by omega)
    (fun i hi => hready i (by omega))] at h
  refine ⟨by rw [h]; rfl, ?_⟩
  intro msg
  rw [h]
  intro hcon
  exact JSReject.noConfusion (Except.error.inj hcon)

/-- C10, witness: a concrete never-ready instance rejects with the bare
`"Loading model"` string, which is not a structured rejection. -/
theorem c10_witness :
    classify ⟨none, none⟩ (fun _ => true) true (fun _ => false)
        "https://example.org/dog.jpg" =
      ⟨.error (.bare "Loading model"), 19000⟩ ∧
    ∀ msg, (classify ⟨none, none⟩ (fun _ => true) true (fun _ => false)
        "https://example.org/dog.jpg").result ≠ .error (.structured msg) :=
  c10_timeout_bare_message ⟨none, none⟩ (fun _ => true) true (fun _ => false)
    "https://example.org/dog.jpg" rfl (by decide) (by decide) (by decide)

end TeachableMachine
